import Mathlib

/-!
Shallow embedding of the Wooohan/huss repository (TypeScript sources:
`src/services/mockService.ts`, `src/services/supabaseClient.ts`,
`src/pages/FMCSARegister.tsx`, `src/unnamed/part_000`) together with
theorems settling the specification claims about it.

JavaScript strings are modelled as Lean `String`/`List Char`; `null`/
`undefined` as `Option`; thrown exceptions as `Except`; the browser
`fetch`, `JSON.parse`, `DOMParser` and the current date as an explicit
environment record.
-/

namespace Huss

/-! ### JavaScript string primitives -/

/-- The non-breaking space character U+00A0. -/
def nbsp : Char := Char.ofNat 160

/-- The character class matched by the JavaScript regular expression `\s`
(which is also exactly the set removed by `String.prototype.trim`). -/
def jsSpace (c : Char) : Bool :=
  c == ' ' || c == Char.ofNat 9 || c == Char.ofNat 10 || c == Char.ofNat 11 ||
  c == Char.ofNat 12 || c == Char.ofNat 13 || c == nbsp || c == Char.ofNat 0x1680 ||
  (0x2000 ≤ c.toNat && c.toNat ≤ 0x200a) || c == Char.ofNat 0x2028 ||
  c == Char.ofNat 0x2029 || c == Char.ofNat 0x202f || c == Char.ofNat 0x205f ||
  c == Char.ofNat 0x3000 || c == Char.ofNat 0xfeff

/-- `text.replace(/a/g, b)` for a single-character pattern. -/
def replaceCh (a b : Char) (l : List Char) : List Char :=
  l.map (fun c => if c == a then b else c)

/-- Worker for `replace(/\s+/g, ' ')`: the flag records whether the
previous character was part of a whitespace run already replaced. -/
def collapseWsAux : Bool → List Char → List Char
  | _, [] => []
  | prevSp, c :: rest =>
    if jsSpace c then
      if prevSp then collapseWsAux true rest
      else ' ' :: collapseWsAux true rest
    else c :: collapseWsAux false rest

/-- `text.replace(/\s+/g, ' ')`: every maximal run of whitespace becomes a
single space. -/
def collapseWs (l : List Char) : List Char := collapseWsAux false l

/-- `text.trim()` on the character list. -/
def trimList (l : List Char) : List Char :=
  ((l.dropWhile jsSpace).reverse.dropWhile jsSpace).reverse

/-- `text.trim()` on strings. -/
def trimStr (s : String) : String := ⟨trimList s.data⟩

/-- `cleanText` from `mockService.ts` (lines 5-9): `null`/`undefined`/`''`
map to `''`; otherwise NBSP and newline are replaced by spaces, whitespace
runs are collapsed to a single space, and the result is trimmed. -/
def cleanText (text : Option String) : String :=
  match text with
  | none => ""
  | some t =>
    if t = "" then ""
    else ⟨trimList (collapseWs (replaceCh (Char.ofNat 10) ' ' (replaceCh nbsp ' ' t.data)))⟩

/-- Does `l` start with `pat`? (Model of the prefix test used by
`String.prototype.includes` and `String.prototype.replace`.) -/
def startsWithCh : List Char → List Char → Bool
  | [], _ => true
  | _ :: _, [] => false
  | a :: asx, b :: bs => a == b && startsWithCh asx bs

/-- Does `hay` contain `pat` as a contiguous substring? -/
def containsSub (pat : List Char) : List Char → Bool
  | [] => pat.isEmpty
  | c :: rest => startsWithCh pat (c :: rest) || containsSub pat rest

/-- `s.includes(sub)` on strings. -/
def containsStr (s sub : String) : Bool := containsSub sub.data s.data

/-- Worker for `String.prototype.replace` with a nonempty string pattern:
replace the first occurrence of `pat` by `repl`. -/
def replaceFirstGo (pat repl : List Char) : List Char → List Char
  | [] => []
  | c :: rest =>
    if startsWithCh pat (c :: rest) then repl ++ (c :: rest).drop pat.length
    else c :: replaceFirstGo pat repl rest

/-- `s.replace(pat, repl)` with a string (non-regexp) pattern: only the
first occurrence is replaced; an empty pattern matches at the start. -/
def replaceFirst (s pat repl : String) : String :=
  if pat.data.isEmpty then ⟨repl.data ++ s.data⟩
  else ⟨replaceFirstGo pat.data repl.data s.data⟩

/-! ### Hexadecimal parsing: `parseInt(·, 16)` and `cfDecodeEmail` -/

/-- The numeric value of a hexadecimal digit character, `none` otherwise. -/
def hexDigitVal (c : Char) : Option Nat :=
  if 48 ≤ c.toNat ∧ c.toNat ≤ 57 then some (c.toNat - 48)
  else if 97 ≤ c.toNat ∧ c.toNat ≤ 102 then some (c.toNat - 87)
  else if 65 ≤ c.toNat ∧ c.toNat ≤ 70 then some (c.toNat - 55)
  else none

/-- Accumulate the value of the longest leading run of hex digits. -/
def hexValAux : List Char → Nat → Nat
  | [], acc => acc
  | c :: rest, acc =>
    match hexDigitVal c with
    | some d => hexValAux rest (16 * acc + d)
    | none => acc

/-- Consume the optional sign at the head of a numeric literal; the flag
records a leading minus. -/
def psSign : List Char → Bool × List Char
  | c :: rest =>
    if c == '-' then (true, rest)
    else if c == '+' then (false, rest)
    else (false, c :: rest)
  | [] => (false, [])

/-- Strip an optional `0x`/`0X` prefix (radix 16). -/
def psStrip0x : List Char → List Char
  | a :: b :: rest => if a == '0' && (b == 'x' || b == 'X') then rest else a :: b :: rest
  | l => l

/-- ECMAScript `parseInt(string, 16)` on a character list: leading
whitespace is skipped, an optional sign and an optional `0x`/`0X`
prefix are consumed, then the longest run of hex digits is read;
`none` models the `NaN` result when no digit is found. -/
def jsParseIntHex (l : List Char) : Option Int :=
  let s := psSign (l.dropWhile jsSpace)
  let l3 := psStrip0x s.2
  match l3 with
  | c :: _ =>
    match hexDigitVal c with
    | some _ => some ((if s.1 then -1 else 1) * (hexValAux l3 0 : Int))
    | none => none
  | [] => none

/-- ECMAScript `ToInt32`/`ToUint32` applied to a possibly-`NaN` number,
viewed through its unsigned 32-bit pattern (`NaN` converts to 0). -/
def toUint32 (x : Option Int) : Nat :=
  match x with
  | none => 0
  | some i => (i % (2 ^ 32 : Int)).toNat

/-- `String.fromCharCode(n)`: the code unit is `n` mod 2^16. (Lone
surrogates cannot arise from the call sites modelled here.) -/
def jsFromCharCode (n : Nat) : Char := Char.ofNat (n % 65536)

/-- `s.substr(start, len)` on a character list. -/
def jsSubstr (l : List Char) (start len : Nat) : List Char := (l.drop start).take len

/-- The loop of `cfDecodeEmail`: each two-character chunk (the last chunk
may have one character) is hex-parsed, XORed against the key `r`
(32-bit semantics, `NaN` acting as 0), and rendered via `fromCharCode`. -/
def decodePairs (r : Nat) : List Char → List Char
  | [] => []
  | [c1] => [jsFromCharCode (toUint32 (jsParseIntHex [c1]) ^^^ r)]
  | c1 :: c2 :: rest =>
    jsFromCharCode (toUint32 (jsParseIntHex [c1, c2]) ^^^ r) :: decodePairs r rest

/-- `cfDecodeEmail` from `mockService.ts` (lines 11-23): the first two
characters are the hex key; each following two-character chunk is hex
parsed and XORed with the key. The `try`/`catch` of the source is
degenerate: no operation in the body throws. -/
def cfDecodeEmail (encoded : String) : String :=
  let l := encoded.data
  let r := toUint32 (jsParseIntHex (jsSubstr l 0 2))
  ⟨decodePairs r (l.drop 2)⟩

/-- Lower-case hexadecimal digit for a value below 16. -/
def toHexDigit (n : Nat) : Char := Char.ofNat (if n < 10 then 48 + n else 87 + n)

/-- Two-hex-digit rendering of a byte. -/
def toHex2 (n : Nat) : List Char := [toHexDigit (n / 16), toHexDigit (n % 16)]

/-- Per-character body of the email obfuscation: each character is XORed
with the key and rendered as two hex digits. -/
def hexPairs (r : Nat) : List Char → List Char
  | [] => []
  | c :: rest => toHex2 (c.toNat ^^^ r) ++ hexPairs r rest

/-- The email-obfuscation encoding that `cfDecodeEmail` is meant to
invert: the two-hex-digit key followed by the XORed characters. -/
def cfEncodeEmail (r : Nat) (s : String) : String :=
  ⟨toHex2 r ++ hexPairs r s.data⟩

/-! ### Shallow DOM model

Only the element shapes actually consulted by `mockService.ts` are kept:
`th` elements with their following sibling (for `findValueByLabel`),
tables addressed by their `summary` attribute (for `findMarked`),
`label` elements of the SMS registration page, the `Rating` and
`RatingDate` elements, the `tr.sumData` cells and the out-of-service
table rows of the safety profile page, and the presence of a `center`
element. Lists are kept in document order, so `querySelector`/`find`
return the first entry. -/

/-- An element cell as read by `findValueByLabel`: `innerText` and
`textContent` of the sibling following a matched `th`. -/
structure Cell where
  innerText : String
  textContent : String
deriving DecidableEq

/-- A `th` element (its `textContent`) together with its
`nextElementSibling`, when one exists. -/
structure ThEntry where
  thText : String
  next : Option Cell
deriving DecidableEq

/-- A `td` cell of a summary table together with the `textContent` of its
`nextElementSibling`, when one exists. -/
structure TdEntry where
  text : String
  next : Option String
deriving DecidableEq

/-- A `table` element carrying a `summary` attribute, with its `td`
cells in document order. -/
structure SummaryTable where
  summary : String
  tds : List TdEntry
deriving DecidableEq

/-- The `parentElement` of an Email label on the SMS registration page:
`cfemailAttr = some a` records that a `[data-cfemail]` descendant exists
whose `getAttribute('data-cfemail')` returns `a` (`none` inside models a
null attribute); `text` is the parent's `textContent`. -/
structure ParentEl where
  cfemailAttr : Option (Option String)
  text : String
deriving DecidableEq

/-- A `label` element of the SMS registration page with its parent. -/
structure LabelEl where
  text : String
  parent : Option ParentEl
deriving DecidableEq

/-- A `td` cell of the `tr.sumData` row: the `textContent` of a
`span.val` descendant when one exists, and of the cell itself. -/
structure SumCell where
  valSpan : Option String
  text : String
deriving DecidableEq

/-- The parsed document, restricted to the queries the code performs. -/
structure Doc where
  ths : List ThEntry
  hasCenter : Bool
  tables : List SummaryTable
  labels : List LabelEl
  ratingText : Option String
  ratingDateText : Option String
  sumDataCells : Option (List SumCell)
  oosRows : Option (List (List String))
deriving DecidableEq

/-- A document with no matching elements at all. -/
def emptyDoc : Doc := ⟨[], false, [], [], none, none, none, none⟩

/-- `findValueByLabel` from `mockService.ts` (lines 25-38): the first
`th` whose cleaned `textContent` contains the label; when it has a next
sibling, its `innerText || textContent`, cleaned; otherwise `''`. -/
def findValueByLabel (doc : Doc) (label : String) : String :=
  match doc.ths.find? (fun th => containsStr (cleanText (some th.thText)) label) with
  | some targetTh =>
    match targetTh.next with
    | some nextTd =>
      cleanText (some (if nextTd.innerText = "" then nextTd.textContent else nextTd.innerText))
    | none => ""
  | none => ""

/-! ### Network layer -/

/-- The outcome of one browser `fetch` call: the promise rejects
(`err`), or a response arrives with its `ok` flag, whether its
content-type includes `application/json`, and its body text. -/
inductive FetchOutcome where
  | err : FetchOutcome
  | resp : Bool → Bool → String → FetchOutcome
deriving DecidableEq

/-- What `fetchUrl` hands to its caller: `null`, a body string, or a
parsed JSON value (represented by its source text). -/
inductive FetchResult where
  | null : FetchResult
  | text : String → FetchResult
  | json : String → FetchResult
deriving DecidableEq

/-- The browser environment: `fetch` by URL, `JSON.parse` (`none` models
a parse exception), `DOMParser.parseFromString(·, 'text/html')`, and
`new Date().toLocaleDateString('en-US')`. -/
structure Env where
  net : String → FetchOutcome
  jsonParse : String → Option String
  parseDoc : String → Doc
  today : String

/-- The character set that `encodeURIComponent` leaves unescaped. -/
def uriUnreserved (c : Char) : Bool :=
  (65 ≤ c.toNat && c.toNat ≤ 90) || (97 ≤ c.toNat && c.toNat ≤ 122) ||
  (48 ≤ c.toNat && c.toNat ≤ 57) ||
  c == '-' || c == '_' || c == '.' || c == '!' || c == '~' || c == '*' ||
  c == Char.ofNat 39 || c == '(' || c == ')'

/-- Upper-case hexadecimal digit for a value below 16. -/
def toHexDigitU (n : Nat) : Char := Char.ofNat (if n < 10 then 48 + n else 55 + n)

/-- Percent-encoding of one byte. -/
def pctByte (b : Nat) : List Char := ['%', toHexDigitU (b / 16), toHexDigitU (b % 16)]

/-- The UTF-8 bytes of a character. -/
def utf8Bytes (c : Char) : List Nat :=
  let n := c.toNat
  if n < 0x80 then [n]
  else if n < 0x800 then [0xc0 + n / 64, 0x80 + n % 64]
  else if n < 0x10000 then [0xe0 + n / 4096, 0x80 + (n / 64) % 64, 0x80 + n % 64]
  else [0xf0 + n / 262144, 0x80 + (n / 4096) % 64, 0x80 + (n / 64) % 64, 0x80 + n % 64]

/-- JavaScript `encodeURIComponent`. -/
def encodeURIComponent (s : String) : String :=
  ⟨s.data.foldr
    (fun c acc =>
      (if uriUnreserved c then [c] else (utf8Bytes c).foldr (fun b a => pctByte b ++ a) []) ++ acc)
    []⟩

/-- The first proxy generator of `fetchUrl`. -/
def allOriginsUrl (url : String) : String :=
  "https://api.allorigins.win/raw?url=" ++ encodeURIComponent url

/-- The second proxy generator of `fetchUrl`. -/
def codetabsUrl (url : String) : String :=
  "https://api.codetabs.com/v1/proxy?quest=" ++ encodeURIComponent url

/-- One iteration of the proxy loop in `fetchUrl` (lines 58-70): a
rejected promise or a non-ok response is swallowed and the loop moves
on (`none`); an ok response yields `JSON.parse(text)` when the body
parses, otherwise the raw text. -/
def proxyAttempt (env : Env) (proxyUrl : String) : Option FetchResult :=
  match env.net proxyUrl with
  | .err => none
  | .resp ok _ body =>
    if ok then
      some (match env.jsonParse body with
            | some j => .json j
            | none => .text body)
    else none

/-- The proxy chain at the end of `fetchUrl`: allorigins, then codetabs,
then `null`. -/
def proxyChain (env : Env) (targetUrl : String) : FetchResult :=
  match proxyAttempt env (allOriginsUrl targetUrl) with
  | some r => r
  | none =>
    match proxyAttempt env (codetabsUrl targetUrl) with
    | some r => r
    | none => .null

/-- `fetchUrl` from `mockService.ts` (lines 42-72). In the direct branch
(`useProxy` false) a rejected `fetch` — or a `response.json()` failure
inside the same `try` — returns `null` at once; only a non-ok direct
response falls through to the proxy chain. -/
def fetchUrl (env : Env) (targetUrl : String) (useProxy : Bool) : FetchResult :=
  let direct : Option FetchResult :=
    if useProxy then none
    else
      match env.net targetUrl with
      | .err => some .null
      | .resp ok isJson body =>
        if ok then
          if isJson then
            match env.jsonParse body with
            | some j => some (.json j)
            | none => some .null
          else some (.text body)
        else none
  match direct with
  | some r => r
  | none => proxyChain env targetUrl

/-- The recovery chain as the specification sentence states it
(refinement reference, written from the spec's words, not the source):
every failing attempt — the direct request included — falls through to
the next proxy in the chain, and `null` is returned only when every
attempt has failed. -/
def fetchUrlSpec (env : Env) (targetUrl : String) (useProxy : Bool) : FetchResult :=
  let direct : Option FetchResult :=
    if useProxy then none
    else
      match env.net targetUrl with
      | .err => none
      | .resp ok isJson body =>
        if ok then
          if isJson then
            match env.jsonParse body with
            | some j => some (.json j)
            | none => none
          else some (.text body)
        else none
  match direct with
  | some r => r
  | none => proxyChain env targetUrl

/-! ### Scraper logic (`mockService.ts`) -/

/-- One BASIC score row of the safety profile. -/
structure BasicScore where
  category : String
  measure : String
deriving DecidableEq

/-- One out-of-service rate row of the safety profile. -/
structure OosRate where
  type : String
  rate : String
  nationalAvg : String
deriving DecidableEq

/-- The value returned by `fetchSafetyData`. -/
structure SafetyData where
  rating : String
  ratingDate : String
  basicScores : List BasicScore
  oosRates : List OosRate
deriving DecidableEq

/-- The flat carrier record produced by `scrapeRealCarrier`. -/
structure CarrierData where
  mcNumber : String
  dotNumber : String
  legalName : String
  dbaName : String
  entityType : String
  status : String
  email : String
  phone : String
  powerUnits : String
  drivers : String
  physicalAddress : String
  mailingAddress : String
  dateScraped : String
  mcs150Date : String
  mcs150Mileage : String
  operationClassification : List String
  carrierOperation : List String
  cargoCarried : List String
  outOfServiceDate : String
  stateCarrierId : String
  dunsNumber : String
deriving DecidableEq

/-- The safety profile URL for a DOT number. -/
def safetyUrl (dot : String) : String :=
  "https://ai.fmcsa.dot.gov/SMS/Carrier/" ++ dot ++ "/CompleteProfile.aspx"

/-- The SMS carrier registration URL for a DOT number. -/
def smsUrl (dot : String) : String :=
  "https://ai.fmcsa.dot.gov/SMS/Carrier/" ++ dot ++ "/CarrierRegistration.aspx"

/-- The SAFER carrier snapshot URL for an MC number. -/
def snapshotUrl (mc : String) : String :=
  "https://safer.fmcsa.dot.gov/query.asp?searchtype=ANY&query_type=queryCarrierSnapshot&query_param=MC_MX&query_string=" ++ mc

/-- The fixed BASIC category names of `fetchSafetyData`. -/
def basicCategories : List String :=
  ["Unsafe Driving", "Crash Indicator", "HOS Compliance", "Vehicle Maintenance",
   "Controlled Substances", "Hazmat Compliance", "Driver Fitness"]

/-- The `tr.sumData` extraction of `fetchSafetyData`: cell `i` is paired
with category `i` (cells beyond the category list are dropped); the
`span.val` text is preferred, an empty value defaults to `'0.00'`. -/
def extractBasicScores (cells : List SumCell) : List BasicScore :=
  cells.enum.filterMap (fun p =>
    match basicCategories.get? p.1 with
    | some cat =>
      let val := match p.2.valSpan with
        | some t => cleanText (some t)
        | none => cleanText (some p.2.text)
      some { category := cat, measure := if val = "" then "0.00" else val }
    | none => none)

/-- The out-of-service table extraction of `fetchSafetyData`: rows with
at least three `th`/`td` cells contribute an entry. -/
def extractOosRates (rows : List (List String)) : List OosRate :=
  rows.filterMap (fun cols =>
    if cols.length ≥ 3 then
      some { type := cleanText (some (cols.getD 0 "")),
             rate := cleanText (some (cols.getD 1 "")),
             nationalAvg := cleanText (some (cols.getD 2 "")) }
    else none)

/-- `fetchSafetyData` from `mockService.ts` (lines 76-138): the backend
result is returned when present; otherwise the safety profile page is
fetched through the proxy chain, and a non-string result makes the
function throw `Could not fetch safety data` (modelled as
`Except.error`). -/
def fetchSafetyData (env : Env) (backend : Option SafetyData) (dot : String) :
    Except String SafetyData :=
  match backend with
  | some r => .ok r
  | none =>
    match fetchUrl env (safetyUrl dot) true with
    | .text html =>
      let doc := env.parseDoc html
      let rating := match doc.ratingText with
        | some t => cleanText (some t)
        | none => "N/A"
      let ratingDate := match doc.ratingDateText with
        | some t =>
          replaceFirst (replaceFirst (replaceFirst (cleanText (some t)) "Rating Date:" "") "(" "") ")" ""
        | none => "N/A"
      let basicScores := match doc.sumDataCells with
        | some cells => extractBasicScores cells
        | none => []
      let oosRates := match doc.oosRows with
        | some rows => extractOosRates rows
        | none => []
      .ok { rating := rating, ratingDate := ratingDate,
            basicScores := basicScores, oosRates := oosRates }
    | .json _ => .error "Could not fetch safety data"
    | .null => .error "Could not fetch safety data"

/-- The label loop of `fetchCarrierEmailFromSMS` (lines 149-159): the
first label containing `Email:` whose parent has a `[data-cfemail]`
descendant returns the decoded attribute; otherwise the parent text
(with `Email:` removed and cleaned) is returned when it is nonempty and
contains `@`; otherwise the loop continues. -/
def emailFromLabels : List LabelEl → String
  | [] => ""
  | lbl :: rest =>
    if containsStr lbl.text "Email:" then
      match lbl.parent with
      | some parent =>
        match parent.cfemailAttr with
        | some attr => cfDecodeEmail (attr.getD "")
        | none =>
          let text := cleanText (some (replaceFirst parent.text "Email:" ""))
          if text ≠ "" ∧ containsStr text "@" = true then text
          else emailFromLabels rest
      | none => emailFromLabels rest
    else emailFromLabels rest

/-- `fetchCarrierEmailFromSMS` from `mockService.ts` (lines 140-161). -/
def fetchCarrierEmailFromSMS (env : Env) (dotNumber : String) (useProxy : Bool) : String :=
  if dotNumber = "" ∨ dotNumber = "UNKNOWN" then ""
  else
    match fetchUrl env (smsUrl dotNumber) useProxy with
    | .text result => emailFromLabels (env.parseDoc result).labels
    | _ => ""

/-- `findMarked` from `scrapeRealCarrier` (lines 181-192): in the first
table with the given `summary`, every `td` whose trimmed text is `X`
contributes the cleaned text of its next sibling. -/
def findMarked (doc : Doc) (summary : String) : List String :=
  match doc.tables.find? (fun t => t.summary == summary) with
  | none => []
  | some table =>
    table.tds.filterMap (fun cell =>
      if trimStr cell.text = "X" then cell.next.map (fun nx => cleanText (some nx))
      else none)

/-- The record shaped by `scrapeRealCarrier` (lines 194-216) before the
email step, with `email` still empty. -/
def shapeCarrier (env : Env) (doc : Doc) (mcNumber : String) : CarrierData :=
  { mcNumber := mcNumber
    dotNumber := findValueByLabel doc "USDOT Number:"
    legalName := findValueByLabel doc "Legal Name:"
    dbaName := findValueByLabel doc "DBA Name:"
    entityType := findValueByLabel doc "Entity Type:"
    status := findValueByLabel doc "Operating Authority Status:"
    email := ""
    phone := findValueByLabel doc "Phone:"
    powerUnits := findValueByLabel doc "Power Units:"
    drivers := findValueByLabel doc "Drivers:"
    physicalAddress := findValueByLabel doc "Physical Address:"
    mailingAddress := findValueByLabel doc "Mailing Address:"
    dateScraped := env.today
    mcs150Date := findValueByLabel doc "MCS-150 Form Date:"
    mcs150Mileage := findValueByLabel doc "MCS-150 Mileage (Year):"
    operationClassification := findMarked doc "Operation Classification"
    carrierOperation := findMarked doc "Carrier Operation"
    cargoCarried := findMarked doc "Cargo Carried"
    outOfServiceDate := findValueByLabel doc "Out of Service Date:"
    stateCarrierId := findValueByLabel doc "State Carrier ID Number:"
    dunsNumber := findValueByLabel doc "DUNS Number:" }

/-- `scrapeRealCarrier` from `mockService.ts` (lines 163-223): backend
first; otherwise fetch the snapshot page, require a `center` element,
shape the record, and when the scraped DOT number is nonempty fill the
email from the SMS registration page. -/
def scrapeRealCarrier (env : Env) (backend : Option CarrierData) (mcNumber : String)
    (useProxy : Bool) : Option CarrierData :=
  match backend with
  | some r => some r
  | none =>
    match fetchUrl env (snapshotUrl mcNumber) useProxy with
    | .text html =>
      let doc := env.parseDoc html
      if doc.hasCenter then
        let carrier := shapeCarrier env doc mcNumber
        if carrier.dotNumber ≠ "" then
          some { carrier with email := fetchCarrierEmailFromSMS env carrier.dotNumber useProxy }
        else some carrier
      else none
    | _ => none

/-! Pipeline stages of the scraping fallback, used to state claim C4. -/

/-- Stage (a): fetch the raw snapshot HTML via direct request or proxy
chain. -/
def stageFetch (env : Env) (mc : String) (useProxy : Bool) : FetchResult :=
  fetchUrl env (snapshotUrl mc) useProxy

/-- Stage (b): parse the fetched HTML into a DOM tree; a non-string
fetch result stops the pipeline. -/
def stageParse (env : Env) : FetchResult → Option Doc
  | .text html => some (env.parseDoc html)
  | _ => none

/-- Stages (c) and (e): run the label-based lookups and shape the flat
record (email left empty); a document without a `center` element stops
the pipeline. -/
def stageShape (env : Env) (mc : String) (doc : Doc) : Option CarrierData :=
  if doc.hasCenter then some (shapeCarrier env doc mc) else none

/-- The post-shaping email step: when the scraped DOT number is
nonempty, a second fetch-parse-decode against the SMS registration page
fills the email field. -/
def stageEmail (env : Env) (useProxy : Bool) (c : CarrierData) : CarrierData :=
  if c.dotNumber ≠ "" then { c with email := fetchCarrierEmailFromSMS env c.dotNumber useProxy }
  else c

/-- The scraping fallback written as an explicit stage composition. -/
def scrapePipeline (env : Env) (backend : Option CarrierData) (mc : String)
    (useProxy : Bool) : Option CarrierData :=
  match backend with
  | some r => some r
  | none =>
    ((stageParse env (stageFetch env mc useProxy)).bind (stageShape env mc)).map
      (stageEmail env useProxy)

/-! ### Supabase client wrapper (`supabaseClient.ts`) -/

/-- JavaScript `value || null` for a string-valued field: `undefined`,
`null` and the empty string are falsy and become `null`. -/
def jsOrNull (v : Option String) : Option String :=
  match v with
  | some s => if s = "" then none else some s
  | none => none

/-- JavaScript `value || dflt` for a string-valued field. -/
def jsOrD (v : Option String) (d : String) : String :=
  match v with
  | some s => if s = "" then d else s
  | none => d

/-- Is a string-valued field falsy (`undefined`, `null` or `''`)? -/
def falsy (v : Option String) : Bool :=
  match v with
  | some s => s == ""
  | none => true

/-- Is a string-valued field truthy? -/
def truthyS (v : Option String) : Bool := !falsy v

/-- The carrier object handed to `saveCarrierToSupabase` (typed `any` in
the source): optional fields may be absent (`none`) or empty. -/
structure CarrierInput where
  mcNumber : String
  dotNumber : String
  legalName : String
  dbaName : Option String
  entityType : String
  status : String
  email : Option String
  phone : Option String
  powerUnits : Option String
  drivers : Option String
  nonCmvUnits : Option String
  physicalAddress : Option String
  mailingAddress : Option String
  dateScraped : String
  mcs150Date : Option String
  mcs150Mileage : Option String
  operationClassification : Option (List String)
  carrierOperation : Option (List String)
  cargoCarried : Option (List String)
  outOfServiceDate : Option String
  stateCarrierId : Option String
  dunsNumber : Option String
  safetyRating : Option String
  safetyRatingDate : Option String
  basicScores : Option String
  oosRates : Option String
  insurancePolicies : Option String

/-- The `CarrierRecord` row built by `saveCarrierToSupabase`
(`supabaseClient.ts` lines 48-76). The JSON-valued fields
(`basic_scores`, `oos_rates`, `insurance_policies`) are represented by
their serialized text. -/
structure CarrierRecord where
  mc_number : String
  dot_number : String
  legal_name : String
  dba_name : Option String
  entity_type : String
  status : String
  email : Option String
  phone : Option String
  power_units : Option String
  drivers : Option String
  non_cmv_units : Option String
  physical_address : Option String
  mailing_address : Option String
  date_scraped : String
  mcs150_date : Option String
  mcs150_mileage : Option String
  operation_classification : List String
  carrier_operation : List String
  cargo_carried : List String
  out_of_service_date : Option String
  state_carrier_id : Option String
  duns_number : Option String
  safety_rating : Option String
  safety_rating_date : Option String
  basic_scores : Option String
  oos_rates : Option String
  insurance_policies : Option String
deriving DecidableEq

/-- The record construction of `saveCarrierToSupabase` (lines 48-76):
every optional scalar is defaulted with `|| null`, every list with
`|| []`. -/
def saveCarrierRecord (c : CarrierInput) : CarrierRecord :=
  { mc_number := c.mcNumber
    dot_number := c.dotNumber
    legal_name := c.legalName
    dba_name := jsOrNull c.dbaName
    entity_type := c.entityType
    status := c.status
    email := jsOrNull c.email
    phone := jsOrNull c.phone
    power_units := jsOrNull c.powerUnits
    drivers := jsOrNull c.drivers
    non_cmv_units := jsOrNull c.nonCmvUnits
    physical_address := jsOrNull c.physicalAddress
    mailing_address := jsOrNull c.mailingAddress
    date_scraped := c.dateScraped
    mcs150_date := jsOrNull c.mcs150Date
    mcs150_mileage := jsOrNull c.mcs150Mileage
    operation_classification := c.operationClassification.getD []
    carrier_operation := c.carrierOperation.getD []
    cargo_carried := c.cargoCarried.getD []
    out_of_service_date := jsOrNull c.outOfServiceDate
    state_carrier_id := jsOrNull c.stateCarrierId
    duns_number := jsOrNull c.dunsNumber
    safety_rating := jsOrNull c.safetyRating
    safety_rating_date := jsOrNull c.safetyRatingDate
    basic_scores := jsOrNull c.basicScores
    oos_rates := jsOrNull c.oosRates
    insurance_policies := jsOrNull c.insurancePolicies }

/-- A row of the `carriers` table as returned by `select('*')`: every
nullable column is optional, list columns may be stored null. -/
structure CarrierRow where
  mc_number : String
  dot_number : String
  legal_name : String
  dba_name : Option String
  entity_type : String
  status : String
  email : Option String
  phone : Option String
  power_units : Option String
  drivers : Option String
  non_cmv_units : Option String
  physical_address : Option String
  mailing_address : Option String
  date_scraped : String
  mcs150_date : Option String
  mcs150_mileage : Option String
  operation_classification : Option (List String)
  carrier_operation : Option (List String)
  cargo_carried : Option (List String)
  out_of_service_date : Option String
  state_carrier_id : Option String
  duns_number : Option String
  safety_rating : Option String
  safety_rating_date : Option String
  basic_scores : Option String
  oos_rates : Option String
  insurance_policies : Option String
  created_at : String
deriving DecidableEq

/-- The camelCase object returned to the frontend by
`fetchCarriersFromSupabase` (lines 157-185). -/
structure CarrierFront where
  mcNumber : String
  dotNumber : String
  legalName : String
  dbaName : Option String
  entityType : String
  status : String
  email : Option String
  phone : Option String
  powerUnits : Option String
  drivers : Option String
  nonCmvUnits : Option String
  physicalAddress : Option String
  mailingAddress : Option String
  dateScraped : String
  mcs150Date : Option String
  mcs150Mileage : Option String
  operationClassification : List String
  carrierOperation : List String
  cargoCarried : List String
  outOfServiceDate : Option String
  stateCarrierId : Option String
  dunsNumber : Option String
  safetyRating : Option String
  safetyRatingDate : Option String
  basicScores : Option String
  oosRates : Option String
  insurancePolicies : Option String
deriving DecidableEq

/-- The snake_case-to-camelCase conversion of `fetchCarriersFromSupabase`
(lines 157-185): the three list columns are defaulted with `|| []`. -/
def rowToFrontend (r : CarrierRow) : CarrierFront :=
  { mcNumber := r.mc_number
    dotNumber := r.dot_number
    legalName := r.legal_name
    dbaName := r.dba_name
    entityType := r.entity_type
    status := r.status
    email := r.email
    phone := r.phone
    powerUnits := r.power_units
    drivers := r.drivers
    nonCmvUnits := r.non_cmv_units
    physicalAddress := r.physical_address
    mailingAddress := r.mailing_address
    dateScraped := r.date_scraped
    mcs150Date := r.mcs150_date
    mcs150Mileage := r.mcs150_mileage
    operationClassification := r.operation_classification.getD []
    carrierOperation := r.carrier_operation.getD []
    cargoCarried := r.cargo_carried.getD []
    outOfServiceDate := r.out_of_service_date
    stateCarrierId := r.state_carrier_id
    dunsNumber := r.duns_number
    safetyRating := r.safety_rating
    safetyRatingDate := r.safety_rating_date
    basicScores := r.basic_scores
    oosRates := r.oos_rates
    insurancePolicies := r.insurance_policies }

/-- The filter object accepted by `fetchCarriersFromSupabase`. The four
numeric min/max fields are declared in the source but never used by the
query construction. -/
structure CarrierFilters where
  mcNumber : Option String := none
  dotNumber : Option String := none
  legalName : Option String := none
  active : Option String := none
  state : Option String := none
  hasEmail : Option String := none
  powerUnitsMin : Option Nat := none
  powerUnitsMax : Option Nat := none
  driversMin : Option Nat := none
  driversMax : Option Nat := none
  limit : Option Nat := none

/-- One condition appended to the supabase query builder. -/
inductive QFilter where
  | ilike : String → String → QFilter
  | notIlike : String → String → QFilter
  | orF : String → QFilter
  | notIs : String → QFilter
  | isNull : String → QFilter
deriving DecidableEq

/-- The query accumulated by the builder chain of
`fetchCarriersFromSupabase`: its conditions, its ordering and its row
limit. -/
structure Query where
  filters : List QFilter
  orderColumn : String
  orderAscending : Bool
  limitRows : Nat
deriving DecidableEq

/-- The query built by `fetchCarriersFromSupabase` (lines 111-147):
truthy text filters append `ilike` patterns, `active`/`hasEmail` use
strict equality against `'true'`/`'false'`, the ordering is
`created_at` descending, and the limit is `filters.limit` when truthy
(zero is falsy in JavaScript) and 200 otherwise. -/
def buildCarriersQuery (f : CarrierFilters) : Query :=
  let fs : List QFilter := []
  let fs := if truthyS f.mcNumber then
      fs ++ [.ilike "mc_number" ("%" ++ f.mcNumber.getD "" ++ "%")] else fs
  let fs := if truthyS f.dotNumber then
      fs ++ [.ilike "dot_number" ("%" ++ f.dotNumber.getD "" ++ "%")] else fs
  let fs := if truthyS f.legalName then
      fs ++ [.ilike "legal_name" ("%" ++ f.legalName.getD "" ++ "%")] else fs
  let fs := if f.active = some "true" then
      fs ++ [.ilike "status" "%AUTHORIZED%", .notIlike "status" "%NOT%"]
    else if f.active = some "false" then
      fs ++ [.orF "status.ilike.%NOT%,status.not.ilike.%AUTHORIZED%"] else fs
  let fs := if truthyS f.state then
      fs ++ [.ilike "physical_address" ("%" ++ f.state.getD "" ++ "%")] else fs
  let fs := if f.hasEmail = some "true" then fs ++ [.notIs "email"]
    else if f.hasEmail = some "false" then fs ++ [.isNull "email"] else fs
  { filters := fs
    orderColumn := "created_at"
    orderAscending := false
    limitRows := match f.limit with
      | some n => if n ≠ 0 then n else 200
      | none => 200 }

/-- The row limit the specification claim predicts: `filters.limit`
whenever the field is set (refinement reference, written from the
claim's words, not the source). -/
def claimedLimit (f : CarrierFilters) : Nat := f.limit.getD 200

/-- Execution of the built query against a table, with the condition
semantics abstracted into a predicate parameter: the matching rows,
ordered by the order column descending, truncated to the row limit. -/
def runCarriersQuery (sat : QFilter → CarrierRow → Bool) (table : List CarrierRow)
    (q : Query) : List CarrierRow :=
  let filtered := table.filter (fun r => q.filters.all (fun f => sat f r))
  let sorted := filtered.mergeSort (fun a b => b.created_at ≤ a.created_at)
  sorted.take q.limitRows

/-- `fetchCarriersFromSupabase` (lines 109-190) given the outcome of the
query execution: an error yields `[]`, data is converted to camelCase
(`data || []` guards a null payload). -/
def fetchCarriersFromSupabase (outcome : Except String (Option (List CarrierRow))) :
    List CarrierFront :=
  match outcome with
  | .error _ => []
  | .ok data => (data.getD []).map rowToFrontend

/-! ### `FMCSARegister.tsx` and the unnamed register page -/

/-- A row of the `fmcsa_register` table as used by `fetchRegisterData`. -/
structure RegItem where
  docket_number : String
  carrier_name : String
  published_date : String
  category : Option String
deriving DecidableEq

/-- An entry of the register page state. -/
structure RegisterEntry where
  number : String
  title : String
  decided : String
  category : String
deriving DecidableEq

/-- The static mock data of `loadMockData` (`FMCSARegister.tsx` lines
79-82). -/
def mockRegisterData : List RegisterEntry :=
  [{ number := "FF-40152", title := "PFL TRANSPORTATION SOLUTIONS INC - SURREY, BC",
     decided := "02/20/2026", category := "NAME CHANGE" },
   { number := "MC-19745", title := "MACON SIX TRANSPORT LLC - LANSING, IL",
     decided := "02/20/2026", category := "GRANT DECISION NOTICES" }]

/-- `fetchRegisterData` from `FMCSARegister.tsx` (lines 41-76), as a
function from the database outcome to the resulting `registerData`
state and error flag: a query error, or an empty result (which throws
`No entries found` into the same catch), loads the mock data; otherwise
rows are mapped onto the UI shape, `category` defaulting to
`GRANT DECISION NOTICES`. `fmtDate` models
`new Date(·).toLocaleDateString()`. -/
def fetchRegisterData (fmtDate : String → String)
    (db : Except String (Option (List RegItem))) : List RegisterEntry × Bool :=
  match db with
  | .error _ => (mockRegisterData, true)
  | .ok data =>
    match data with
    | some items =>
      if items.length > 0 then
        (items.map (fun item =>
          { number := item.docket_number
            title := item.carrier_name
            decided := fmtDate item.published_date
            category := jsOrD item.category "GRANT DECISION NOTICES" }), false)
      else (mockRegisterData, true)
    | none => (mockRegisterData, true)

/-- A record of the unnamed register page (`src/unnamed/part_000`). -/
structure FmcsaRecordR where
  id : Nat
  docket_number : String
  carrier_info : String
  published_date : Option String
  category : String
  scrape_date : Option String
  register_date : Option String
deriving DecidableEq

/-- `fetchRecords` from `src/unnamed/part_000` (lines 103-136), as a
function from the API outcome to the `(records, totalRecords)` state:
an error yields `([], 0)`; missing payload fields default with
`|| []` and `|| 0`. -/
def fetchRecordsState
    (resp : Except String (Option (List FmcsaRecordR) × Option Nat)) :
    List FmcsaRecordR × Nat :=
  match resp with
  | .error _ => ([], 0)
  | .ok payload => (payload.1.getD [], payload.2.getD 0)

/-- Adjacent characters are not both spaces (the relation used to state
that `cleanText` output has no two consecutive spaces). -/
def noDoubleSpaceRel (a b : Char) : Prop := ¬(a = ' ' ∧ b = ' ')

/-! ### Concrete environments and inputs used in counterexamples and
witnesses -/

/-- An environment in which every network request rejects. -/
def envAllFail : Env :=
  { net := fun _ => .err
    jsonParse := fun _ => none
    parseDoc := fun _ => emptyDoc
    today := "1/1/2026" }

/-- A network in which the direct request to `http://x` rejects but the
allorigins proxy would answer with the body `hello`. -/
def cexNet3 : String → FetchOutcome := fun u =>
  if u = allOriginsUrl "http://x" then .resp true false "hello" else .err

/-- The environment of the C3 counterexample. -/
def cexEnv3 : Env :=
  { net := cexNet3
    jsonParse := fun _ => none
    parseDoc := fun _ => emptyDoc
    today := "1/1/2026" }

/-- A carrier snapshot document: a `center` element and a single labeled
row giving USDOT number 7. -/
def snapDoc4 : Doc :=
  { emptyDoc with
    hasCenter := true
    ths := [{ thText := "USDOT Number:", next := some { innerText := "7", textContent := "7" } }] }

/-- An SMS registration document carrying a plain-text email. -/
def smsDocA : Doc :=
  { emptyDoc with
    labels := [{ text := "Email: a@b.c", parent := some { cfemailAttr := none, text := "Email: a@b.c" } }] }

/-- The shared HTML parser of the C4 counterexample. -/
def cexParse4 : String → Doc := fun h =>
  if h = "SNAP" then snapDoc4 else if h = "SMSA" then smsDocA else emptyDoc

/-- Network A of the C4 counterexample: the snapshot page and the SMS
registration page both answer. -/
def netA4 : String → FetchOutcome := fun u =>
  if u = snapshotUrl "9" then .resp true false "SNAP"
  else if u = smsUrl "7" then .resp true false "SMSA"
  else .err

/-- Network B of the C4 counterexample: identical to network A on the
snapshot page and its proxy wrappings, but the SMS registration request
rejects. -/
def netB4 : String → FetchOutcome := fun u =>
  if u = snapshotUrl "9" then .resp true false "SNAP" else .err

/-- Environment A of the C4 counterexample. -/
def envA4 : Env :=
  { net := netA4, jsonParse := fun _ => none, parseDoc := cexParse4, today := "d" }

/-- Environment B of the C4 counterexample. -/
def envB4 : Env :=
  { net := netB4, jsonParse := fun _ => none, parseDoc := cexParse4, today := "d" }

/-- A carrier input whose optional fields are all absent. -/
def carrierInputAllAbsent : CarrierInput :=
  { mcNumber := "MC1", dotNumber := "1", legalName := "L", dbaName := none,
    entityType := "E", status := "S", email := none, phone := none,
    powerUnits := none, drivers := none, nonCmvUnits := none,
    physicalAddress := none, mailingAddress := none, dateScraped := "D",
    mcs150Date := none, mcs150Mileage := none, operationClassification := none,
    carrierOperation := none, cargoCarried := none, outOfServiceDate := none,
    stateCarrierId := none, dunsNumber := none, safetyRating := none,
    safetyRatingDate := none, basicScores := none, oosRates := none,
    insurancePolicies := none }

/-- A stored row whose nullable columns are all null. -/
def carrierRowAllNull : CarrierRow :=
  { mc_number := "MC1", dot_number := "1", legal_name := "L", dba_name := none,
    entity_type := "E", status := "S", email := none, phone := none,
    power_units := none, drivers := none, non_cmv_units := none,
    physical_address := none, mailing_address := none, date_scraped := "D",
    mcs150_date := none, mcs150_mileage := none, operation_classification := none,
    carrier_operation := none, cargo_carried := none, out_of_service_date := none,
    state_carrier_id := none, duns_number := none, safety_rating := none,
    safety_rating_date := none, basic_scores := none, oos_rates := none,
    insurance_policies := none, created_at := "2026-01-01" }

/-- A filter object whose `limit` field is set to zero. -/
def zeroLimitFilters : CarrierFilters := { limit := some 0 }

/-- A document exercising the three branches of `findValueByLabel`: a
matched header with a following cell, and a matched header without one. -/
def docC7 : Doc :=
  { emptyDoc with
    ths := [{ thText := "Phone:", next := some { innerText := "555", textContent := "555" } },
            { thText := "DBA Name:", next := none }] }

/-! ### Supporting lemmas: the hexadecimal round trip -/

theorem hexDigit_props (v : Nat) (h : v < 16) :
    hexDigitVal (toHexDigit v) = some v ∧ jsSpace (toHexDigit v) = false ∧
    (toHexDigit v == '-') = false ∧ (toHexDigit v == '+') = false ∧
    ((toHexDigit v == 'x') || (toHexDigit v == 'X')) = false := by
  interval_cases v <;> exact (by decide)

theorem jsParseIntHex_toHex2 (v : Nat) (h : v < 256) :
    jsParseIntHex (toHex2 v) = some (v : Int) := by
  have h1 : v / 16 < 16 := by omega
  have h0 : v % 16 < 16 := by omega
  obtain ⟨e1, s1, m1, p1, x1⟩ := hexDigit_props _ h1
  obtain ⟨e0, s0, m0, p0, x0⟩ := hexDigit_props _ h0
  simp only [jsParseIntHex, toHex2, List.dropWhile_cons, s1, Bool.false_eq_true, if_false,
    psSign, m1, p1, psStrip0x, x0, Bool.and_false, e1, hexValAux, e0]
  norm_num
  omega

theorem toUint32_small (x : Nat) (h : x < 4294967296) : toUint32 (some (x : Int)) = x := by
  simp only [toUint32]
  rw [Int.emod_eq_of_lt (Int.ofNat_nonneg x) (by exact_mod_cast h)]
  exact Int.toNat_ofNat x

theorem decodePairs_hexPairs (r : Nat) (hr : r < 256) :
    ∀ l : List Char, (∀ c ∈ l, c.toNat < 256) → decodePairs r (hexPairs r l) = l
  | [], _ => rfl
  | c :: rest, h => by
    have hc : c.toNat < 256 := h c (List.mem_cons_self c rest)
    have hx : c.toNat ^^^ r < 256 := by
      have := Nat.xor_lt_two_pow (n := 8) (by simpa using hc) (by simpa using hr)
      simpa using this
    have ih := decodePairs_hexPairs r hr rest (fun d hd => h d (List.mem_cons_of_mem c hd))
    show decodePairs r (toHex2 (c.toNat ^^^ r) ++ hexPairs r rest) = c :: rest
    show decodePairs r (toHexDigit ((c.toNat ^^^ r) / 16) ::
      toHexDigit ((c.toNat ^^^ r) % 16) :: hexPairs r rest) = c :: rest
    simp only [decodePairs]
    have hj : jsParseIntHex [toHexDigit ((c.toNat ^^^ r) / 16),
        toHexDigit ((c.toNat ^^^ r) % 16)] = some ((c.toNat ^^^ r : Nat) : Int) :=
      jsParseIntHex_toHex2 _ hx
    rw [hj, toUint32_small _ (by omega)]
    have hxor : c.toNat ^^^ r ^^^ r = c.toNat := by
      rw [Nat.xor_assoc, Nat.xor_self, Nat.xor_zero]
    rw [hxor]
    have hch : jsFromCharCode c.toNat = c := by
      unfold jsFromCharCode
      rw [Nat.mod_eq_of_lt (by omega), Char.ofNat_toNat]
    rw [hch, ih]

/-- Claim C2 (confirmed): `cfDecodeEmail` inverts the email-obfuscation
encoding — for every key byte `r < 256` and every string `s` of
character codes below 256, decoding the two-hex-digit rendering of `r`
followed by the two-hex-digit renderings of each `c XOR r` returns
exactly `s`. -/
theorem c2_cfDecodeEmail_inverts_encoding (r : Nat) (s : String) (hr : r < 256)
    (hs : ∀ c ∈ s.data, c.toNat < 256) :
    cfDecodeEmail (cfEncodeEmail r s) = s := by
  show (⟨decodePairs (toUint32 (jsParseIntHex (jsSubstr (toHex2 r ++ hexPairs r s.data) 0 2)))
        ((toHex2 r ++ hexPairs r s.data).drop 2)⟩ : String) = s
  have hsub : jsSubstr (toHex2 r ++ hexPairs r s.data) 0 2 = toHex2 r := rfl
  have hdrop : (toHex2 r ++ hexPairs r s.data).drop 2 = hexPairs r s.data := rfl
  rw [hsub, hdrop, jsParseIntHex_toHex2 r hr, toUint32_small r (by omega),
    decodePairs_hexPairs r hr s.data hs]

/-- Witness for C2 at the key 1 and the string `ab`. -/
theorem c2_witness :
    1 < 256 ∧ (∀ c ∈ ("ab" : String).data, c.toNat < 256) ∧
    cfDecodeEmail (cfEncodeEmail 1 "ab") = "ab" :=
  ⟨by decide, by decide, c2_cfDecodeEmail_inverts_encoding 1 "ab" (by decide) (by decide)⟩

theorem decodePairs_length (r : Nat) :
    ∀ l : List Char, (decodePairs r l).length = (l.length + 1) / 2
  | [] => by simp [decodePairs]
  | [_] => by simp [decodePairs]
  | _ :: _ :: rest => by
    have ih := decodePairs_length r rest
    simp only [decodePairs, List.length_cons, ih]
    omega

/-- Claim C9 (confirmed): `cfDecodeEmail` is total — every input of
length at most two (the empty string included) decodes to the empty
string, and every input whatsoever (a non-hexadecimal leading pair
included) decodes to a definite string, of length equal to the number of
two-character chunks after the key; nothing in the body can raise. -/
theorem c9_cfDecodeEmail_total (s : String) :
    (s.data.length ≤ 2 → cfDecodeEmail s = "") ∧
    (cfDecodeEmail s).data.length = (s.data.length - 2 + 1) / 2 := by
  constructor
  · intro h
    show (⟨decodePairs (toUint32 (jsParseIntHex (jsSubstr s.data 0 2))) (s.data.drop 2)⟩ :
      String) = ""
    rw [List.drop_eq_nil_of_le h]
    simp [decodePairs]
  · show (decodePairs (toUint32 (jsParseIntHex (jsSubstr s.data 0 2)))
      (s.data.drop 2)).length = (s.data.length - 2 + 1) / 2
    rw [decodePairs_length, List.length_drop]

/-- Witness for C9 at the length-2 input `ab` and at `zzzz` (whose
leading pair is not valid hexadecimal). -/
theorem c9_witness :
    ("ab" : String).data.length ≤ 2 ∧ cfDecodeEmail "ab" = "" ∧
    (cfDecodeEmail "zzzz").data.length = (("zzzz" : String).data.length - 2 + 1) / 2 :=
  ⟨by decide, (c9_cfDecodeEmail_total "ab").1 (by decide), (c9_cfDecodeEmail_total "zzzz").2⟩

/-! ### Supporting lemmas: cleanText normalisation -/

theorem collapseWsAux_cons_space {a : Char} (rest : List Char) (ha : jsSpace a = true) :
    collapseWsAux false (a :: rest) = ' ' :: collapseWsAux true rest ∧
    collapseWsAux true (a :: rest) = collapseWsAux true rest := by
  constructor <;> simp [collapseWsAux, ha]

theorem collapseWsAux_cons_nonspace {a : Char} (rest : List Char) (ha : jsSpace a = false)
    (b : Bool) : collapseWsAux b (a :: rest) = a :: collapseWsAux false rest := by
  simp [collapseWsAux, ha]

theorem collapseWsAux_space_eq (l : List Char) :
    ∀ (b : Bool) (c : Char), c ∈ collapseWsAux b l → jsSpace c = true → c = ' ' := by
  induction l with
  | nil => intro b c hc _; simp [collapseWsAux] at hc
  | cons a rest ih =>
    intro b c hc hsp
    by_cases ha : jsSpace a = true
    · cases b with
      | true =>
        rw [(collapseWsAux_cons_space rest ha).2] at hc
        exact ih true c hc hsp
      | false =>
        rw [(collapseWsAux_cons_space rest ha).1] at hc
        rcases List.mem_cons.mp hc with h | h
        · exact h
        · exact ih true c h hsp
    · have ha2 : jsSpace a = false := by revert ha; cases jsSpace a <;> simp
      rw [collapseWsAux_cons_nonspace rest ha2 b] at hc
      rcases List.mem_cons.mp hc with h | h
      · subst h; rw [hsp] at ha2; cases ha2
      · exact ih false c h hsp

theorem collapseWsAux_chain (l : List Char) :
    ∀ b : Bool, List.Chain' noDoubleSpaceRel (collapseWsAux b l) ∧
      (∀ c, (collapseWsAux true l).head? = some c → c ≠ ' ') := by
  induction l with
  | nil =>
    intro b
    constructor
    · cases b <;> exact List.chain'_nil
    · intro c hc; simp [collapseWsAux] at hc
  | cons a rest ih =>
    intro b
    by_cases ha : jsSpace a = true
    · constructor
      · cases b with
        | true =>
          rw [(collapseWsAux_cons_space rest ha).2]
          exact (ih true).1
        | false =>
          rw [(collapseWsAux_cons_space rest ha).1, List.chain'_cons']
          refine ⟨?_, (ih true).1⟩
          intro y hy hcon
          exact (ih true).2 y hy hcon.2
      · intro c hc
        rw [(collapseWsAux_cons_space rest ha).2] at hc
        exact (ih true).2 c hc
    · have ha2 : jsSpace a = false := by revert ha; cases jsSpace a <;> simp
      have hane : a ≠ ' ' := by
        intro he; subst he
        exact absurd ha2 (by decide)
      constructor
      · rw [collapseWsAux_cons_nonspace rest ha2 b, List.chain'_cons']
        refine ⟨?_, (ih false).1⟩
        intro y _ hcon
        exact hane hcon.1
      · intro c hc
        rw [collapseWsAux_cons_nonspace rest ha2 true] at hc
        simp only [List.head?_cons, Option.some.injEq] at hc
        subst hc
        exact hane

theorem head?_dropWhile_not {α : Type} (p : α → Bool) (l : List α) :
    ∀ c, (l.dropWhile p).head? = some c → p c = false := by
  induction l with
  | nil => intro c hc; simp at hc
  | cons a rest ih =>
    intro c hc
    rw [List.dropWhile_cons] at hc
    by_cases hp : p a = true
    · rw [if_pos hp] at hc
      exact ih c hc
    · rw [if_neg hp] at hc
      simp only [List.head?_cons, Option.some.injEq] at hc
      subst hc
      exact Bool.eq_false_iff.mpr hp

theorem trimList_getLast (l : List Char) :
    ∀ c, (trimList l).getLast? = some c → jsSpace c = false := by
  intro c hc
  unfold trimList at hc
  rw [List.getLast?_reverse] at hc
  exact head?_dropWhile_not _ _ c hc

theorem trimList_head (l : List Char) :
    ∀ c, (trimList l).head? = some c → jsSpace c = false := by
  intro c hc
  unfold trimList at hc
  rw [List.head?_reverse] at hc
  obtain ⟨t, ht⟩ := List.dropWhile_suffix (l := (l.dropWhile jsSpace).reverse) jsSpace
  have h1 : ((l.dropWhile jsSpace).reverse).getLast? = some c := by
    rw [← ht, List.getLast?_append, hc]
    rfl
  rw [List.getLast?_reverse] at h1
  exact head?_dropWhile_not _ _ c h1

theorem mem_of_mem_trimList {c : Char} {l : List Char} (h : c ∈ trimList l) : c ∈ l := by
  unfold trimList at h
  rw [List.mem_reverse] at h
  have h2 := (List.dropWhile_sublist _).subset h
  rw [List.mem_reverse] at h2
  exact (List.dropWhile_sublist _).subset h2

theorem trimList_chain {l : List Char} (h : List.Chain' noDoubleSpaceRel l) :
    List.Chain' noDoubleSpaceRel (trimList l) := by
  have hm : List.Chain' noDoubleSpaceRel (l.dropWhile jsSpace) :=
    h.suffix (List.dropWhile_suffix _)
  have hmr : List.Chain' (flip noDoubleSpaceRel) (l.dropWhile jsSpace).reverse := by
    rw [List.chain'_reverse]
    exact hm.imp (fun a b hab => hab)
  have hX : List.Chain' (flip noDoubleSpaceRel)
      ((l.dropWhile jsSpace).reverse.dropWhile jsSpace) :=
    hmr.suffix (List.dropWhile_suffix _)
  unfold trimList
  rw [List.chain'_reverse]
  exact hX

theorem collapseWsAux_fixed : ∀ (l : List Char) (b : Bool),
    (∀ c ∈ l, jsSpace c = true → c = ' ') →
    List.Chain' noDoubleSpaceRel l →
    (b = true → ∀ c, l.head? = some c → c ≠ ' ') →
    collapseWsAux b l = l
  | [], b, _, _, _ => by cases b <;> rfl
  | a :: rest, b, hsp, hch, hflag => by
    have hchTail : List.Chain' noDoubleSpaceRel rest := (List.chain'_cons'.mp hch).2
    have hspTail : ∀ c ∈ rest, jsSpace c = true → c = ' ' :=
      fun c hc => hsp c (List.mem_cons_of_mem a hc)
    by_cases ha : jsSpace a = true
    · have haSp : a = ' ' := hsp a (List.mem_cons_self a rest) ha
      cases b with
      | true => exact absurd haSp (hflag rfl a rfl)
      | false =>
        have hrest : collapseWsAux true rest = rest := by
          apply collapseWsAux_fixed rest true hspTail hchTail
          intro _ c hc he
          subst he
          exact (List.chain'_cons'.mp hch).1 ' ' hc ⟨haSp, rfl⟩
        rw [(collapseWsAux_cons_space rest ha).1, hrest, haSp]
    · have ha2 : jsSpace a = false := by revert ha; cases jsSpace a <;> simp
      rw [collapseWsAux_cons_nonspace rest ha2 b]
      rw [collapseWsAux_fixed rest false hspTail hchTail (fun h => by cases h)]

theorem replaceCh_not_mem {a b : Char} {l : List Char} (h : a ∉ l) : replaceCh a b l = l := by
  induction l with
  | nil => rfl
  | cons c rest ih =>
    have hca : (c == a) = false := by
      have hne : c ≠ a := fun he => h (he ▸ List.mem_cons_self c rest)
      revert hne; cases hcb : c == a <;> simp_all
    have htail := ih (fun hm => h (List.mem_cons_of_mem c hm))
    simp only [replaceCh, List.map_cons, hca, Bool.false_eq_true, if_false]
    simp only [replaceCh] at htail
    rw [htail]

theorem dropWhile_eq_self_of_head {α : Type} (p : α → Bool) (l : List α)
    (h : ∀ c, l.head? = some c → p c = false) : l.dropWhile p = l := by
  cases l with
  | nil => rfl
  | cons a rest =>
    rw [List.dropWhile_cons, if_neg]
    simp [h a rfl]

theorem trimList_fixed {l : List Char}
    (h1 : ∀ c, l.head? = some c → jsSpace c = false)
    (h2 : ∀ c, l.getLast? = some c → jsSpace c = false) : trimList l = l := by
  unfold trimList
  rw [dropWhile_eq_self_of_head _ _ h1]
  rw [dropWhile_eq_self_of_head _ _ (by
    intro c hc
    rw [List.head?_reverse] at hc
    exact h2 c hc)]
  exact List.reverse_reverse l

theorem cleanText_core_props (l : List Char) :
    (∀ c ∈ trimList (collapseWs l), jsSpace c = true → c = ' ') ∧
    List.Chain' noDoubleSpaceRel (trimList (collapseWs l)) ∧
    (∀ c, (trimList (collapseWs l)).head? = some c → jsSpace c = false) ∧
    (∀ c, (trimList (collapseWs l)).getLast? = some c → jsSpace c = false) := by
  refine ⟨?_, ?_, trimList_head _, trimList_getLast _⟩
  · intro c hc hs
    exact collapseWsAux_space_eq l false c (mem_of_mem_trimList hc) hs
  · exact trimList_chain (collapseWsAux_chain l false).1

theorem cleanText_core_fixed (l : List Char) :
    trimList (collapseWs (replaceCh (Char.ofNat 10) ' '
      (replaceCh nbsp ' ' (trimList (collapseWs l))))) = trimList (collapseWs l) := by
  obtain ⟨hsp, hch, hhd, hlast⟩ := cleanText_core_props l
  have hnb : nbsp ∉ trimList (collapseWs l) := by
    intro hm
    exact absurd (hsp _ hm (by decide)) (by decide)
  have hnl : Char.ofNat 10 ∉ trimList (collapseWs l) := by
    intro hm
    exact absurd (hsp _ hm (by decide)) (by decide)
  rw [replaceCh_not_mem hnb, replaceCh_not_mem hnl]
  rw [show collapseWs (trimList (collapseWs l)) = trimList (collapseWs l) from
    collapseWsAux_fixed _ false hsp hch (fun h => by cases h)]
  exact trimList_fixed hhd hlast

/-- Claim C8 (confirmed): `cleanText` is a total normalizer and
idempotent — every input (`null`/`undefined` included) maps to a string
with no non-breaking space, no newline, no two consecutive spaces and
no leading or trailing whitespace, and `cleanText` applied to its own
output returns it unchanged. -/
theorem c8_cleanText_normalizer_idempotent (s : Option String) :
    (∀ c ∈ (cleanText s).data, c ≠ nbsp ∧ c ≠ Char.ofNat 10) ∧
    List.Chain' noDoubleSpaceRel (cleanText s).data ∧
    (∀ c, (cleanText s).data.head? = some c → jsSpace c = false) ∧
    (∀ c, (cleanText s).data.getLast? = some c → jsSpace c = false) ∧
    cleanText (some (cleanText s)) = cleanText s := by
  match s with
  | none =>
    refine ⟨?_, ?_, ?_, ?_, rfl⟩ <;> simp [cleanText]
  | some t =>
    by_cases ht : t = ""
    · subst ht
      refine ⟨?_, ?_, ?_, ?_, rfl⟩ <;> simp [cleanText]
    · have hred : cleanText (some t) =
          ⟨trimList (collapseWs (replaceCh (Char.ofNat 10) ' ' (replaceCh nbsp ' ' t.data)))⟩ := by
        show (if t = "" then "" else
          (⟨trimList (collapseWs (replaceCh (Char.ofNat 10) ' '
            (replaceCh nbsp ' ' t.data)))⟩ : String)) = _
        rw [if_neg ht]
      obtain ⟨hsp, hch, hhd, hlast⟩ :=
        cleanText_core_props (replaceCh (Char.ofNat 10) ' ' (replaceCh nbsp ' ' t.data))
      have hdata : (cleanText (some t)).data =
          trimList (collapseWs (replaceCh (Char.ofNat 10) ' ' (replaceCh nbsp ' ' t.data))) := by
        rw [hred]
      refine ⟨?_, ?_, ?_, ?_, ?_⟩
      · intro c hc
        rw [hdata] at hc
        constructor
        · intro hcn; subst hcn; exact absurd (hsp _ hc (by decide)) (by decide)
        · intro hcn; subst hcn; exact absurd (hsp _ hc (by decide)) (by decide)
      · rw [hdata]; exact hch
      · rw [hdata]; exact hhd
      · rw [hdata]; exact hlast
      · rw [hred]
        by_cases hout : trimList (collapseWs (replaceCh (Char.ofNat 10) ' '
            (replaceCh nbsp ' ' t.data))) = []
        · rw [hout]
          rfl
        · have hne : (⟨trimList (collapseWs (replaceCh (Char.ofNat 10) ' '
              (replaceCh nbsp ' ' t.data)))⟩ : String) ≠ "" := by
            intro he
            exact hout (congrArg String.data he)
          show (if (⟨trimList (collapseWs (replaceCh (Char.ofNat 10) ' '
              (replaceCh nbsp ' ' t.data)))⟩ : String) = "" then "" else
            (⟨trimList (collapseWs (replaceCh (Char.ofNat 10) ' '
              (replaceCh nbsp ' ' (trimList (collapseWs (replaceCh (Char.ofNat 10) ' '
                (replaceCh nbsp ' ' t.data)))))))⟩ : String)) = _
          rw [if_neg hne]
          exact congrArg String.mk (cleanText_core_fixed _)

/-- Witness for C8: idempotence at a concrete noisy input, and the
NBSP-freeness of a concrete output character. -/
theorem c8_witness :
    cleanText (some (cleanText (some " a   b "))) = cleanText (some " a   b ") ∧
    'a' ∈ (cleanText (some " a   b ")).data ∧ 'a' ≠ nbsp :=
  ⟨(c8_cleanText_normalizer_idempotent (some " a   b ")).2.2.2.2, by decide,
    ((c8_cleanText_normalizer_idempotent (some " a   b ")).1 'a' (by decide)).1⟩

/-! ### Claims C7, C5, C3, C1 -/

/-- Claim C7 (confirmed): `findValueByLabel` returns the cleaned text
(`innerText || textContent`) of the cell immediately following the
first `th` whose cleaned text contains the label, and the empty string
when no header matches or the matching header has no following
sibling. -/
theorem c7_findValueByLabel_spec (doc : Doc) (label : String) :
    (doc.ths.find? (fun th => containsStr (cleanText (some th.thText)) label) = none →
      findValueByLabel doc label = "") ∧
    (∀ th, doc.ths.find? (fun th => containsStr (cleanText (some th.thText)) label) = some th →
      th.next = none → findValueByLabel doc label = "") ∧
    (∀ th cell,
      doc.ths.find? (fun th => containsStr (cleanText (some th.thText)) label) = some th →
      th.next = some cell →
      findValueByLabel doc label =
        cleanText (some (if cell.innerText = "" then cell.textContent else cell.innerText))) := by
  refine ⟨?_, ?_, ?_⟩
  · intro h
    unfold findValueByLabel
    rw [h]
  · intro th h hn
    unfold findValueByLabel
    rw [h]
    show (match th.next with
          | some nextTd =>
            cleanText (some (if nextTd.innerText = "" then nextTd.textContent else nextTd.innerText))
          | none => "") = ""
    rw [hn]
  · intro th cell h hn
    unfold findValueByLabel
    rw [h]
    show (match th.next with
          | some nextTd =>
            cleanText (some (if nextTd.innerText = "" then nextTd.textContent else nextTd.innerText))
          | none => "") = _
    rw [hn]

/-- Witness for C7 on a concrete two-header document. -/
theorem c7_witness :
    findValueByLabel docC7 "Phone:" =
      cleanText (some (if ("555" : String) = "" then "555" else "555")) ∧
    findValueByLabel docC7 "Zip:" = "" :=
  ⟨(c7_findValueByLabel_spec docC7 "Phone:").2.2
      { thText := "Phone:", next := some { innerText := "555", textContent := "555" } }
      { innerText := "555", textContent := "555" } (by decide) rfl,
   (c7_findValueByLabel_spec docC7 "Zip:").1 (by decide)⟩

/-- Claim C5 (confirmed): `scrapeRealCarrier` and `fetchSafetyData`
query the backend first and return its value whenever it yields one —
for every environment, the scraping fallback has no influence on the
result when the backend succeeds. -/
theorem c5_backend_first (env : Env) (c : CarrierData) (s : SafetyData) (mc dot : String)
    (useProxy : Bool) :
    scrapeRealCarrier env (some c) mc useProxy = some c ∧
    fetchSafetyData env (some s) dot = Except.ok s :=
  ⟨rfl, rfl⟩

/-- Counterexample for C3: a network where the direct request rejects
but the allorigins proxy would answer — `fetchUrl` returns `null`
without trying any proxy, while the chain the specification describes
(`fetchUrlSpec`) would return the proxy's body. -/
theorem c3_counterexample :
    cexEnv3.net "http://x" = FetchOutcome.err ∧
    fetchUrl cexEnv3 "http://x" false = FetchResult.null ∧
    fetchUrlSpec cexEnv3 "http://x" false = FetchResult.text "hello" ∧
    fetchUrl cexEnv3 "http://x" false ≠ fetchUrlSpec cexEnv3 "http://x" false := by
  refine ⟨?_, ?_, ?_, ?_⟩ <;> decide

/-- Claim C3 (amended, proved): when `useProxy` is false and the direct
`fetch` rejects, `fetchUrl` returns `null` immediately; the proxy chain
(allorigins, then codetabs, then `null`) runs only when the direct
request returned a non-ok response or `useProxy` is true; within the
chain each failing attempt falls through to the next and `null` is
returned when both proxies fail. -/
theorem c3_amended_fetchUrl_recovery (env : Env) (u : String) :
    (env.net u = .err → fetchUrl env u false = .null) ∧
    (∀ isJson body, env.net u = .resp false isJson body →
      fetchUrl env u false = proxyChain env u) ∧
    (fetchUrl env u true = proxyChain env u) ∧
    (∀ r, proxyAttempt env (allOriginsUrl u) = some r → proxyChain env u = r) ∧
    (∀ r, proxyAttempt env (allOriginsUrl u) = none →
      proxyAttempt env (codetabsUrl u) = some r → proxyChain env u = r) ∧
    (proxyAttempt env (allOriginsUrl u) = none → proxyAttempt env (codetabsUrl u) = none →
      proxyChain env u = .null) := by
  refine ⟨?_, ?_, rfl, ?_, ?_, ?_⟩
  · intro h
    simp [fetchUrl, h]
  · intro isJson body h
    simp [fetchUrl, h]
  · intro r h
    simp [proxyChain, h]
  · intro r h1 h2
    simp [proxyChain, h1, h2]
  · intro h1 h2
    simp [proxyChain, h1, h2]

/-- Witness for C3 (amended) on the all-failing environment and the C3
counterexample environment. -/
theorem c3_witness :
    envAllFail.net "http://x" = FetchOutcome.err ∧
    fetchUrl envAllFail "http://x" false = FetchResult.null ∧
    proxyAttempt cexEnv3 (allOriginsUrl "http://x") = some (FetchResult.text "hello") ∧
    proxyChain cexEnv3 "http://x" = FetchResult.text "hello" :=
  ⟨rfl, (c3_amended_fetchUrl_recovery envAllFail "http://x").1 rfl, by decide,
   (c3_amended_fetchUrl_recovery cexEnv3 "http://x").2.2.2.1 (FetchResult.text "hello")
     (by decide)⟩

/-- Counterexample for C1: with the backend yielding nothing and every
network request rejecting, `fetchSafetyData` propagates the exception
`Could not fetch safety data` to its caller instead of returning an
empty result or mock data. -/
theorem c1_counterexample :
    fetchSafetyData envAllFail none "44110" = Except.error "Could not fetch safety data" := rfl

/-- Claim C1 (amended, proved): every fetch or scrape operation except
the scraping fallback of `fetchSafetyData` replaces failure by an empty
result (`''`, `[]`, `null`) or static mock data — `fetchUrl` yields
`null`, `fetchCarrierEmailFromSMS` yields `''`, `scrapeRealCarrier`
yields `null`, `fetchRegisterData` loads mock data,
`fetchCarriersFromSupabase` yields `[]` and the register page's
`fetchRecords` yields `([], 0)`; `fetchSafetyData` instead throws
`Could not fetch safety data` when its fallback fetch yields no
string. -/
theorem c1_amended_failure_handling (env : Env) (dot mc : String) (useProxy : Bool)
    (fmtDate : String → String) (e : String) :
    (fetchUrl env (smsUrl dot) useProxy = .null →
      fetchCarrierEmailFromSMS env dot useProxy = "") ∧
    (fetchUrl env (snapshotUrl mc) useProxy = .null →
      scrapeRealCarrier env none mc useProxy = none) ∧
    (fetchUrl env (safetyUrl dot) true = .null →
      fetchSafetyData env none dot = .error "Could not fetch safety data") ∧
    (fetchRegisterData fmtDate (.error e) = (mockRegisterData, true)) ∧
    (fetchCarriersFromSupabase (.error e) = []) ∧
    (fetchRecordsState (.error e) = ([], 0)) := by
  refine ⟨?_, ?_, ?_, rfl, rfl, rfl⟩
  · intro h
    unfold fetchCarrierEmailFromSMS
    by_cases hd : dot = "" ∨ dot = "UNKNOWN"
    · rw [if_pos hd]
    · rw [if_neg hd, h]
  · intro h
    simp [scrapeRealCarrier, h]
  · intro h
    simp [fetchSafetyData, h]

/-- Witness for C1 (amended) on the all-failing environment. -/
theorem c1_witness :
    fetchUrl envAllFail (smsUrl "7") false = FetchResult.null ∧
    fetchCarrierEmailFromSMS envAllFail "7" false = "" ∧
    scrapeRealCarrier envAllFail none "9" false = none ∧
    fetchSafetyData envAllFail none "7" = Except.error "Could not fetch safety data" ∧
    fetchRegisterData id (Except.error "boom") = (mockRegisterData, true) ∧
    fetchCarriersFromSupabase (Except.error "boom") = [] ∧
    fetchRecordsState (Except.error "boom") = ([], 0) :=
  ⟨rfl,
   (c1_amended_failure_handling envAllFail "7" "9" false id "boom").1 rfl,
   (c1_amended_failure_handling envAllFail "7" "9" false id "boom").2.1 rfl,
   (c1_amended_failure_handling envAllFail "7" "9" false id "boom").2.2.1 rfl,
   (c1_amended_failure_handling envAllFail "7" "9" false id "boom").2.2.2.1,
   (c1_amended_failure_handling envAllFail "7" "9" false id "boom").2.2.2.2.1,
   (c1_amended_failure_handling envAllFail "7" "9" false id "boom").2.2.2.2.2⟩

/-! ### Claim C4 -/

/-- Counterexample for C4: the claimed five-step linear pipeline makes
the result a function of the single fetched snapshot document, but two
environments that agree on the snapshot page (directly and through both
proxy wrappings) and share the same parser, JSON parser and date
produce different results — a second fetch-parse-decode of the SMS
registration page runs after the record is shaped. -/
theorem c4_counterexample :
    envA4.net (snapshotUrl "9") = envB4.net (snapshotUrl "9") ∧
    envA4.net (allOriginsUrl (snapshotUrl "9")) = envB4.net (allOriginsUrl (snapshotUrl "9")) ∧
    envA4.net (codetabsUrl (snapshotUrl "9")) = envB4.net (codetabsUrl (snapshotUrl "9")) ∧
    envA4.parseDoc = envB4.parseDoc ∧ envA4.jsonParse = envB4.jsonParse ∧
    envA4.today = envB4.today ∧
    scrapeRealCarrier envA4 none "9" false ≠ scrapeRealCarrier envB4 none "9" false := by
  refine ⟨?_, ?_, ?_, rfl, rfl, rfl, ?_⟩ <;> decide

/-- Claim C4 (amended, proved): the scraping fallback of
`scrapeRealCarrier` is the linear sequence (a) fetch raw HTML via
direct request or proxy chain, (b) parse into a DOM tree, (c)+(e) run
the label-based lookups and shape the flat record with an empty email,
followed by one further step: when the scraped DOT number is nonempty,
a second fetch-parse-decode against the SMS registration page fills the
email field; no other processing occurs. -/
theorem c4_amended_pipeline (env : Env) (backend : Option CarrierData) (mc : String)
    (useProxy : Bool) :
    scrapeRealCarrier env backend mc useProxy = scrapePipeline env backend mc useProxy := by
  unfold scrapeRealCarrier scrapePipeline stageFetch stageParse
  cases backend with
  | some r => rfl
  | none =>
    cases fetchUrl env (snapshotUrl mc) useProxy with
    | null => rfl
    | json j => rfl
    | text html =>
      show (if (env.parseDoc html).hasCenter then
              (if (shapeCarrier env (env.parseDoc html) mc).dotNumber ≠ "" then
                some { shapeCarrier env (env.parseDoc html) mc with
                  email := fetchCarrierEmailFromSMS env
                    (shapeCarrier env (env.parseDoc html) mc).dotNumber useProxy }
              else some (shapeCarrier env (env.parseDoc html) mc))
            else none) =
        ((stageShape env mc (env.parseDoc html)).map (stageEmail env useProxy))
      unfold stageShape stageEmail
      by_cases hcen : (env.parseDoc html).hasCenter
      · rw [if_pos hcen, if_pos hcen]
        show _ = some (if (shapeCarrier env (env.parseDoc html) mc).dotNumber ≠ "" then
            { shapeCarrier env (env.parseDoc html) mc with
              email := fetchCarrierEmailFromSMS env
                (shapeCarrier env (env.parseDoc html) mc).dotNumber useProxy }
          else shapeCarrier env (env.parseDoc html) mc)
        by_cases hd : (shapeCarrier env (env.parseDoc html) mc).dotNumber ≠ ""
        · rw [if_pos hd, if_pos hd]
        · rw [if_neg hd, if_neg hd]
      · rw [if_neg hcen, if_neg hcen]
        rfl

/-! ### Claim C6 -/

theorem jsOrNull_falsy {v : Option String} (h : falsy v = true) : jsOrNull v = none := by
  cases v with
  | none => rfl
  | some s =>
    have hs : s = "" := by simpa [falsy] using h
    simp [jsOrNull, hs]

/-- Claim C6 (confirmed): optional-field defaulting is applied at the
storage boundary — every absent or falsy optional scalar field of a
carrier passed to `saveCarrierToSupabase` is stored as null, every
absent list field as the empty array, and symmetrically
`fetchCarriersFromSupabase` returns every absent list field as the
empty array. -/
theorem c6_storage_defaulting (c : CarrierInput) (r : CarrierRow) :
    (falsy c.dbaName = true → (saveCarrierRecord c).dba_name = none) ∧
    (falsy c.email = true → (saveCarrierRecord c).email = none) ∧
    (falsy c.phone = true → (saveCarrierRecord c).phone = none) ∧
    (falsy c.powerUnits = true → (saveCarrierRecord c).power_units = none) ∧
    (falsy c.drivers = true → (saveCarrierRecord c).drivers = none) ∧
    (falsy c.nonCmvUnits = true → (saveCarrierRecord c).non_cmv_units = none) ∧
    (falsy c.physicalAddress = true → (saveCarrierRecord c).physical_address = none) ∧
    (falsy c.mailingAddress = true → (saveCarrierRecord c).mailing_address = none) ∧
    (falsy c.mcs150Date = true → (saveCarrierRecord c).mcs150_date = none) ∧
    (falsy c.mcs150Mileage = true → (saveCarrierRecord c).mcs150_mileage = none) ∧
    (falsy c.outOfServiceDate = true → (saveCarrierRecord c).out_of_service_date = none) ∧
    (falsy c.stateCarrierId = true → (saveCarrierRecord c).state_carrier_id = none) ∧
    (falsy c.dunsNumber = true → (saveCarrierRecord c).duns_number = none) ∧
    (falsy c.safetyRating = true → (saveCarrierRecord c).safety_rating = none) ∧
    (falsy c.safetyRatingDate = true → (saveCarrierRecord c).safety_rating_date = none) ∧
    (falsy c.basicScores = true → (saveCarrierRecord c).basic_scores = none) ∧
    (falsy c.oosRates = true → (saveCarrierRecord c).oos_rates = none) ∧
    (falsy c.insurancePolicies = true → (saveCarrierRecord c).insurance_policies = none) ∧
    (c.operationClassification = none → (saveCarrierRecord c).operation_classification = []) ∧
    (c.carrierOperation = none → (saveCarrierRecord c).carrier_operation = []) ∧
    (c.cargoCarried = none → (saveCarrierRecord c).cargo_carried = []) ∧
    (r.operation_classification = none → (rowToFrontend r).operationClassification = []) ∧
    (r.carrier_operation = none → (rowToFrontend r).carrierOperation = []) ∧
    (r.cargo_carried = none → (rowToFrontend r).cargoCarried = []) :=
  ⟨fun h => jsOrNull_falsy h,
   ⟨fun h => jsOrNull_falsy h,
   ⟨fun h => jsOrNull_falsy h,
   ⟨fun h => jsOrNull_falsy h,
   ⟨fun h => jsOrNull_falsy h,
   ⟨fun h => jsOrNull_falsy h,
   ⟨fun h => jsOrNull_falsy h,
   ⟨fun h => jsOrNull_falsy h,
   ⟨fun h => jsOrNull_falsy h,
   ⟨fun h => jsOrNull_falsy h,
   ⟨fun h => jsOrNull_falsy h,
   ⟨fun h => jsOrNull_falsy h,
   ⟨fun h => jsOrNull_falsy h,
   ⟨fun h => jsOrNull_falsy h,
   ⟨fun h => jsOrNull_falsy h,
   ⟨fun h => jsOrNull_falsy h,
   ⟨fun h => jsOrNull_falsy h,
   ⟨fun h => jsOrNull_falsy h,
   ⟨fun h => by simp [saveCarrierRecord, h],
   ⟨fun h => by simp [saveCarrierRecord, h],
   ⟨fun h => by simp [saveCarrierRecord, h],
   ⟨fun h => by simp [rowToFrontend, h],
   ⟨fun h => by simp [rowToFrontend, h],
   fun h => by simp [rowToFrontend, h]⟩⟩⟩⟩⟩⟩⟩⟩⟩⟩⟩⟩⟩⟩⟩⟩⟩⟩⟩⟩⟩⟩⟩

/-- Witness for C6 at an all-absent carrier and an all-null row. -/
theorem c6_witness :
    (saveCarrierRecord carrierInputAllAbsent).dba_name = none ∧
    (saveCarrierRecord carrierInputAllAbsent).email = none ∧
    (saveCarrierRecord carrierInputAllAbsent).phone = none ∧
    (saveCarrierRecord carrierInputAllAbsent).power_units = none ∧
    (saveCarrierRecord carrierInputAllAbsent).drivers = none ∧
    (saveCarrierRecord carrierInputAllAbsent).non_cmv_units = none ∧
    (saveCarrierRecord carrierInputAllAbsent).physical_address = none ∧
    (saveCarrierRecord carrierInputAllAbsent).mailing_address = none ∧
    (saveCarrierRecord carrierInputAllAbsent).mcs150_date = none ∧
    (saveCarrierRecord carrierInputAllAbsent).mcs150_mileage = none ∧
    (saveCarrierRecord carrierInputAllAbsent).out_of_service_date = none ∧
    (saveCarrierRecord carrierInputAllAbsent).state_carrier_id = none ∧
    (saveCarrierRecord carrierInputAllAbsent).duns_number = none ∧
    (saveCarrierRecord carrierInputAllAbsent).safety_rating = none ∧
    (saveCarrierRecord carrierInputAllAbsent).safety_rating_date = none ∧
    (saveCarrierRecord carrierInputAllAbsent).basic_scores = none ∧
    (saveCarrierRecord carrierInputAllAbsent).oos_rates = none ∧
    (saveCarrierRecord carrierInputAllAbsent).insurance_policies = none ∧
    (saveCarrierRecord carrierInputAllAbsent).operation_classification = [] ∧
    (saveCarrierRecord carrierInputAllAbsent).carrier_operation = [] ∧
    (saveCarrierRecord carrierInputAllAbsent).cargo_carried = [] ∧
    (rowToFrontend carrierRowAllNull).operationClassification = [] ∧
    (rowToFrontend carrierRowAllNull).carrierOperation = [] ∧
    (rowToFrontend carrierRowAllNull).cargoCarried = [] :=
  ⟨(c6_storage_defaulting carrierInputAllAbsent carrierRowAllNull).1 rfl,
   ⟨(c6_storage_defaulting carrierInputAllAbsent carrierRowAllNull).2.1 rfl,
   ⟨(c6_storage_defaulting carrierInputAllAbsent carrierRowAllNull).2.2.1 rfl,
   ⟨(c6_storage_defaulting carrierInputAllAbsent carrierRowAllNull).2.2.2.1 rfl,
   ⟨(c6_storage_defaulting carrierInputAllAbsent carrierRowAllNull).2.2.2.2.1 rfl,
   ⟨(c6_storage_defaulting carrierInputAllAbsent carrierRowAllNull).2.2.2.2.2.1 rfl,
   ⟨(c6_storage_defaulting carrierInputAllAbsent carrierRowAllNull).2.2.2.2.2.2.1 rfl,
   ⟨(c6_storage_defaulting carrierInputAllAbsent carrierRowAllNull).2.2.2.2.2.2.2.1 rfl,
   ⟨(c6_storage_defaulting carrierInputAllAbsent carrierRowAllNull).2.2.2.2.2.2.2.2.1 rfl,
   ⟨(c6_storage_defaulting carrierInputAllAbsent carrierRowAllNull).2.2.2.2.2.2.2.2.2.1 rfl,
   ⟨(c6_storage_defaulting carrierInputAllAbsent carrierRowAllNull).2.2.2.2.2.2.2.2.2.2.1 rfl,
   ⟨(c6_storage_defaulting carrierInputAllAbsent carrierRowAllNull).2.2.2.2.2.2.2.2.2.2.2.1 rfl,
   ⟨(c6_storage_defaulting carrierInputAllAbsent carrierRowAllNull).2.2.2.2.2.2.2.2.2.2.2.2.1 rfl,
   ⟨(c6_storage_defaulting carrierInputAllAbsent carrierRowAllNull).2.2.2.2.2.2.2.2.2.2.2.2.2.1 rfl,
   ⟨(c6_storage_defaulting carrierInputAllAbsent carrierRowAllNull).2.2.2.2.2.2.2.2.2.2.2.2.2.2.1 rfl,
   ⟨(c6_storage_defaulting carrierInputAllAbsent carrierRowAllNull).2.2.2.2.2.2.2.2.2.2.2.2.2.2.2.1 rfl,
   ⟨(c6_storage_defaulting carrierInputAllAbsent carrierRowAllNull).2.2.2.2.2.2.2.2.2.2.2.2.2.2.2.2.1 rfl,
   ⟨(c6_storage_defaulting carrierInputAllAbsent carrierRowAllNull).2.2.2.2.2.2.2.2.2.2.2.2.2.2.2.2.2.1 rfl,
   ⟨(c6_storage_defaulting carrierInputAllAbsent carrierRowAllNull).2.2.2.2.2.2.2.2.2.2.2.2.2.2.2.2.2.2.1 rfl,
   ⟨(c6_storage_defaulting carrierInputAllAbsent carrierRowAllNull).2.2.2.2.2.2.2.2.2.2.2.2.2.2.2.2.2.2.2.1 rfl,
   ⟨(c6_storage_defaulting carrierInputAllAbsent carrierRowAllNull).2.2.2.2.2.2.2.2.2.2.2.2.2.2.2.2.2.2.2.2.1 rfl,
   ⟨(c6_storage_defaulting carrierInputAllAbsent carrierRowAllNull).2.2.2.2.2.2.2.2.2.2.2.2.2.2.2.2.2.2.2.2.2.1 rfl,
   ⟨(c6_storage_defaulting carrierInputAllAbsent carrierRowAllNull).2.2.2.2.2.2.2.2.2.2.2.2.2.2.2.2.2.2.2.2.2.2.1 rfl,
   (c6_storage_defaulting carrierInputAllAbsent carrierRowAllNull).2.2.2.2.2.2.2.2.2.2.2.2.2.2.2.2.2.2.2.2.2.2.2 rfl⟩⟩⟩⟩⟩⟩⟩⟩⟩⟩⟩⟩⟩⟩⟩⟩⟩⟩⟩⟩⟩⟩⟩

/-! ### Claim C10 -/

/-- Counterexample for C10: with the `limit` field set (to 0), the built
query applies the default 200, not the claimed `filters.limit` — zero is
falsy in JavaScript, so `if (filters.limit)` takes the default branch. -/
theorem c10_counterexample :
    zeroLimitFilters.limit = some 0 ∧
    (buildCarriersQuery zeroLimitFilters).limitRows = 200 ∧
    (buildCarriersQuery zeroLimitFilters).limitRows ≠ claimedLimit zeroLimitFilters := by
  refine ⟨rfl, ?_, ?_⟩ <;> decide

/-- Claim C10 (amended, proved): `fetchCarriersFromSupabase` always
bounds and orders its result — the built query orders rows by
`created_at` descending; its row limit is `filters.limit` when that
field is set and nonzero, and 200 when it is unset or zero; and under
the query-execution semantics the returned rows are sorted by
`created_at` descending and never exceed the applicable limit. -/
theorem c10_amended_query_bounds (f : CarrierFilters)
    (sat : QFilter → CarrierRow → Bool) (table : List CarrierRow) :
    (buildCarriersQuery f).orderColumn = "created_at" ∧
    (buildCarriersQuery f).orderAscending = false ∧
    (∀ n, f.limit = some n → n ≠ 0 → (buildCarriersQuery f).limitRows = n) ∧
    (f.limit = none ∨ f.limit = some 0 → (buildCarriersQuery f).limitRows = 200) ∧
    (runCarriersQuery sat table (buildCarriersQuery f)).length ≤
      (buildCarriersQuery f).limitRows ∧
    List.Pairwise (fun a b : CarrierRow => b.created_at ≤ a.created_at)
      (runCarriersQuery sat table (buildCarriersQuery f)) := by
  refine ⟨rfl, rfl, ?_, ?_, ?_, ?_⟩
  · intro n h hn
    simp [buildCarriersQuery, h, hn]
  · intro h
    rcases h with h | h <;> simp [buildCarriersQuery, h]
  · show ((((table.filter (fun r =>
        (buildCarriersQuery f).filters.all (fun fl => sat fl r))).mergeSort
        (fun a b => b.created_at ≤ a.created_at)).take
        (buildCarriersQuery f).limitRows)).length ≤ (buildCarriersQuery f).limitRows
    rw [List.length_take]
    exact Nat.min_le_left _ _
  · have htrans : ∀ a b c : CarrierRow,
        decide (b.created_at ≤ a.created_at) = true →
        decide (c.created_at ≤ b.created_at) = true →
        decide (c.created_at ≤ a.created_at) = true := by
      intro a b c h1 h2
      rw [decide_eq_true_iff] at h1 h2 ⊢
      exact le_trans h2 h1
    have htotal : ∀ a b : CarrierRow,
        (decide (b.created_at ≤ a.created_at) || decide (a.created_at ≤ b.created_at)) = true := by
      intro a b
      rw [Bool.or_eq_true, decide_eq_true_iff, decide_eq_true_iff]
      exact le_total b.created_at a.created_at
    have hp := List.sorted_mergeSort htrans htotal
      (table.filter (fun r => (buildCarriersQuery f).filters.all (fun fl => sat fl r)))
    have hp2 := hp.sublist (List.take_sublist (buildCarriersQuery f).limitRows _)
    exact hp2.imp (fun h => of_decide_eq_true h)

/-- Witness for C10 (amended) at concrete filter objects. -/
theorem c10_witness :
    (buildCarriersQuery { limit := some 7 }).limitRows = 7 ∧
    (buildCarriersQuery {}).limitRows = 200 ∧
    (runCarriersQuery (fun _ _ => true) [] (buildCarriersQuery {})).length ≤
      (buildCarriersQuery {}).limitRows :=
  ⟨(c10_amended_query_bounds { limit := some 7 } (fun _ _ => true) []).2.2.1 7 rfl (by decide),
   (c10_amended_query_bounds {} (fun _ _ => true) []).2.2.2.1 (Or.inl rfl),
   (c10_amended_query_bounds {} (fun _ _ => true) []).2.2.2.2.1⟩

end Huss
